import Mathlib

/-!
Shallow embedding of the datamgr ingestion service (main.go) and proofs
about its schema compiler, field resolver, request dispatcher and file
materializer.  External collaborators (wall-clock formatting, the
text/template engine, the filesystem) are passed in as explicit oracles;
everything else is translated directly from the source.
-/

namespace Datamgr

/-- Constants from the Go const block: `FormatCodeYAML = 1`,
`TypeCodeString = 1`, `TypeCodeBool = iota` (= 2 at that position),
`GenerateCodeTimestamp = 1`. -/
def FormatCodeYAML : Nat := 1

def TypeCodeString : Nat := 1

def TypeCodeBool : Nat := 2

def GenerateCodeTimestamp : Nat := 1

/-- A dynamically typed field value (`Value interface{}` in Go).
`none` is Go's nil interface value. -/
inductive FieldValue
  | none
  | str (s : String)
  | bool (b : Bool)
  deriving DecidableEq, Repr

/-- A field spec as it comes out of yaml.Unmarshal: the unexported
`typeCode` and `generateCode` are always zero at this stage, so the raw
structure simply omits them. -/
structure RawField where
  Internal : Bool
  Value : FieldValue
  Type' : String
  Generate : String
  Required : Bool
  Format : String
  deriving DecidableEq, Repr

/-- A compiled field spec (`ConfigField` after `Config.Parse` has filled
in the internal codes). -/
structure ConfigField where
  Internal : Bool
  Value : FieldValue
  Type' : String
  typeCode : Nat
  Generate : String
  generateCode : Nat
  Required : Bool
  Format : String
  deriving DecidableEq, Repr

/-- Go's `time.RFC3339` layout string. -/
def rfc3339 : String := "2006-01-02T15:04:05Z07:00"

/-- The compile-time default timestamp layout from `Config.Parse`. -/
def defaultTimestampLayout : String := "20060102.150405.999999999"

/-- `generateTimestamp` from main.go.  Rendering the current instant with
a layout is the host time library's job, so it is abstracted as
`fmtTime : String → String` (layout ↦ rendered text of "now"); the
function itself only chooses the layout: the RFC-3339 fallback fires
exactly when the field's format is empty. -/
def generateTimestamp (fmtTime : String → String) (format : String) : String :=
  if format = "" then fmtTime rfc3339 else fmtTime format

/-- Go's `strconv.ParseBool`: accepts exactly these twelve strings. -/
def parseBool (s : String) : Option Bool :=
  if s = "1" ∨ s = "t" ∨ s = "T" ∨ s = "TRUE" ∨ s = "true" ∨ s = "True" then
    some true
  else if s = "0" ∨ s = "f" ∨ s = "F" ∨ s = "FALSE" ∨ s = "false" ∨ s = "False" then
    some false
  else
    Option.none

/-- Error message built by `fetchValue` for a missing required field. -/
def requiredErrMsg (name : String) : String :=
  "required field field." ++ name ++ " not set"

/-- Go's `%+v` rendering of a `[]string`. -/
def goSliceRepr (v : List String) : String :=
  "[" ++ String.intercalate " " v ++ "]"

/-- Error message built by `fetchValue` when boolean coercion fails. -/
def coercionErrMsg (name : String) (v : List String) : String :=
  "cannot parse field field." ++ name ++ " to boolean (value is " ++ goSliceRepr v ++ ")"

/-- `ConfigField.fetchValue` from main.go.  `values` is `r.Form`
(`url.Values`), a multimap from key to the submitted value list; the
result is the updated field together with the error returned (Go returns
the mutated receiver implicitly). -/
def ConfigField.fetchValue (fmtTime : String → String) (f : ConfigField)
    (name : String) (values : String → List String) :
    ConfigField × Option String :=
  let v := values ("field." ++ name)
  let f := if f.generateCode = GenerateCodeTimestamp then
      { f with Value := .str (generateTimestamp fmtTime f.Format) }
    else f
  if f.Internal then
    (f, Option.none)
  else if v.length = 0 then
    if f.Required then (f, some (requiredErrMsg name)) else (f, Option.none)
  else if f.typeCode = TypeCodeString then
    ({ f with Value := .str (v.getLast?.getD "") }, Option.none)
  else if f.typeCode = TypeCodeBool then
    match parseBool (v.getLast?.getD "") with
    | some b => ({ f with Value := .bool b }, Option.none)
    | Option.none => ({ f with Value := .bool false }, some (coercionErrMsg name v))
  else
    (f, Option.none)

/-- Raw `create_file` section as yaml.Unmarshal produces it. -/
structure RawCreateFile where
  Name : String
  Format : String
  deriving DecidableEq, Repr

/-- Raw route (`ConfigReceive` before compilation).  Go's maps iterate in
an unspecified order; they are modelled as association lists whose order
stands for one admissible iteration order. -/
structure RawReceive where
  Fields : List (String × RawField)
  CreateFile : Option RawCreateFile
  deriving DecidableEq, Repr

/-- Raw top-level configuration (`Config` before compilation). -/
structure RawConfig where
  Receive : List (String × RawReceive)
  deriving DecidableEq, Repr

/-- Compiled `ConfigCreateFile` (the parsed template itself lives in the
template oracle; the struct keeps the source text and the format code). -/
structure ConfigCreateFile where
  Name : String
  Format : String
  formatCode : Nat
  deriving DecidableEq, Repr

/-- Compiled route. -/
structure ConfigReceive where
  Fields : List (String × ConfigField)
  CreateFile : Option ConfigCreateFile
  deriving DecidableEq, Repr

/-- Compiled configuration. -/
structure Config where
  Receive : List (String × ConfigReceive)
  deriving DecidableEq, Repr

/-- Error text for an unknown `generate` value in `Config.Parse`. -/
def generateErrMsg (endpoint fName g : String) : String :=
  "receive[" ++ endpoint ++ "].fields." ++ fName ++ ".generate unexpected " ++ g
    ++ ", expected \x22timestamp\x22"

/-- Error text for an unknown `type` value in `Config.Parse`. -/
def typeErrMsg (endpoint fName t : String) : String :=
  "receive[" ++ endpoint ++ "].fields." ++ fName ++ ".type unexpected type " ++ t
    ++ ", expected \x22string\x22 or \x22bool\x22"

/-- Error text for a template parse failure in `Config.Parse`. -/
def templateErrMsg (endpoint e : String) : String :=
  "receive[" ++ endpoint ++ "].create_file.name template error, " ++ e

/-- Error text for an unknown `create_file.format` in `Config.Parse`. -/
def formatErrMsg (endpoint fmt : String) : String :=
  "receive[" ++ endpoint ++ "].create_file.format unexpected format " ++ fmt
    ++ ", expected \x22yaml\x22"

/-- The per-field part of `Config.Parse`: the `generate` switch (setting
`generateCode` and defaulting `Format`), then the `type` switch (setting
`typeCode`); each unknown value appends one error. -/
def parseField (endpoint fName : String) (f : RawField) : ConfigField × List String :=
  let base : ConfigField :=
    { Internal := f.Internal, Value := f.Value, Type' := f.Type', typeCode := 0,
      Generate := f.Generate, generateCode := 0, Required := f.Required,
      Format := f.Format }
  let step1 : ConfigField × List String :=
    if f.Generate = "" then (base, [])
    else if f.Generate = "timestamp" then
      ({ base with
         generateCode := GenerateCodeTimestamp
         Format := if f.Format = "" then defaultTimestampLayout else f.Format }, [])
    else (base, [generateErrMsg endpoint fName f.Generate])
  let step2 : ConfigField × List String :=
    if f.Type' = "" ∨ f.Type' = "string" then
      ({ step1.1 with typeCode := TypeCodeString }, [])
    else if f.Type' = "bool" then
      ({ step1.1 with typeCode := TypeCodeBool }, [])
    else (step1.1, [typeErrMsg endpoint fName f.Type'])
  (step2.1, step1.2 ++ step2.2)

/-- The `create_file` part of `Config.Parse`.  `tmplErr` is the
text/template parser: `none` when the template text parses,
`some errText` otherwise. -/
def parseCreateFile (tmplErr : String → Option String) (endpoint : String)
    (cf : RawCreateFile) : ConfigCreateFile × List String :=
  let tErrs : List String :=
    match tmplErr cf.Name with
    | Option.none => []
    | some e => [templateErrMsg endpoint e]
  let step2 : Nat × List String :=
    if cf.Format = "yaml" ∨ cf.Format = "" then (FormatCodeYAML, [])
    else (0, [formatErrMsg endpoint cf.Format])
  ({ Name := cf.Name, Format := cf.Format, formatCode := step2.1 }, tErrs ++ step2.2)

/-- The per-route part of `Config.Parse`. -/
def parseReceive (tmplErr : String → Option String) (endpoint : String)
    (r : RawReceive) : ConfigReceive × List String :=
  let fs := r.Fields.map (fun nf => (nf.1, parseField endpoint nf.1 nf.2))
  let fields := fs.map (fun nf => (nf.1, nf.2.1))
  let fErrs := (fs.map (fun nf => nf.2.2)).flatten
  match r.CreateFile with
  | Option.none => ({ Fields := fields, CreateFile := Option.none }, fErrs)
  | some cf =>
    let step := parseCreateFile tmplErr endpoint cf
    ({ Fields := fields, CreateFile := some step.1 }, fErrs ++ step.2)

/-- `Config.Parse` from main.go, after a successful `yaml.Unmarshal`
(so the incoming error is nil): walks every route and field, compiles
codes and templates, and accumulates every error through
`multierror.Append`, returned here as the list of error messages in
append order. -/
def Config.Parse (tmplErr : String → Option String) (c : RawConfig) :
    Config × List String :=
  let rs := c.Receive.map (fun er => (er.1, parseReceive tmplErr er.1 er.2))
  ({ Receive := rs.map (fun er => (er.1, er.2.1)) }, (rs.map (fun er => er.2.2)).flatten)

/-- Number of structural defects in one raw field: an unknown `generate`
value and an unknown `type` value each count one. -/
def RawField.defects (f : RawField) : Nat :=
  (if f.Generate = "" ∨ f.Generate = "timestamp" then 0 else 1) +
  (if f.Type' = "" ∨ f.Type' = "string" ∨ f.Type' = "bool" then 0 else 1)

/-- Number of structural defects in a raw `create_file` section: a
template that fails to parse and an unknown format each count one. -/
def RawCreateFile.defects (tmplErr : String → Option String)
    (cf : RawCreateFile) : Nat :=
  (match tmplErr cf.Name with | Option.none => 0 | some _ => 1) +
  (if cf.Format = "yaml" ∨ cf.Format = "" then 0 else 1)

/-- Number of structural defects in a raw route. -/
def RawReceive.defects (tmplErr : String → Option String) (r : RawReceive) : Nat :=
  (r.Fields.map (fun nf => nf.2.defects)).sum +
  (match r.CreateFile with
   | Option.none => 0
   | some cf => cf.defects tmplErr)

/-- Number of structural defects in a raw configuration. -/
def RawConfig.defects (tmplErr : String → Option String) (c : RawConfig) : Nat :=
  (c.Receive.map (fun er => er.2.defects tmplErr)).sum

/-- Go's `path.Base`: "" ↦ ".", trailing slashes stripped, then the part
after the last slash; all-slash input ↦ "/". -/
def pathBase (p : String) : String :=
  if p = "" then "."
  else
    let stripped := p.toList.reverse.dropWhile (fun c => c = '/')
    let base := stripped.takeWhile (fun c => c ≠ '/')
    if base = [] then "/" else String.mk base.reverse

/-- Go's `strings.Join`. -/
def goJoin (sep : String) : List String → String
  | [] => ""
  | [x] => x
  | x :: y :: xs => x ++ sep ++ goJoin sep (y :: xs)

/-- hashicorp/go-multierror's default `ListFormatFunc`, rendering the
aggregated error list into the single message `err.Error()` returns. -/
def multierrorMsg (es : List String) : String :=
  if es.length = 1 then
    "1 error occurred:\n\t* " ++ es.headD "" ++ "\n\n"
  else
    toString es.length ++ " errors occurred:\n\t"
      ++ goJoin "\n\t" (es.map (fun e => "* " ++ e)) ++ "\n\n"

/-- An HTTP response written by the handler (`http.Error` with status
400 or 500, or `http.Redirect` with status 303). -/
inductive HResp
  | badRequest (msg : String)
  | internalError (msg : String)
  | redirect (loc : String)
  deriving DecidableEq, Repr

/-- A filesystem-level action attempted by `Perform`, in order:
`os.MkdirAll`, `os.Create`, yaml encoding into the created file. -/
inductive FsAction
  | mkdirAll (dir : String)
  | createFile (name : String)
  | encodeYaml (name : String) (record : List (String × FieldValue))
  deriving DecidableEq, Repr

/-- The external collaborators of `Perform`: template cloning and
execution (text/template) and the filesystem's success/failure answers.
`render` maps the template text and the field map to the rendered file
name, or `none` when `Execute` errors. -/
structure Ext where
  cloneOk : Bool
  render : String → List (String × FieldValue) → Option String
  mkdirOk : String → Bool
  createOk : String → Bool
  encodeOk : Bool

/-- `Process.fieldMap` from main.go: field name ↦ resolved value. -/
def fieldMap (fields : List (String × ConfigField)) : List (String × FieldValue) :=
  fields.map (fun nf => (nf.1, nf.2.Value))

/-- Outcome of `ConfigCreateFile.Perform`: responses written, filesystem
actions attempted, and whether the unknown-format `panic` fired. -/
structure PerformResult where
  responses : List HResp
  actions : List FsAction
  panicked : Bool
  deriving DecidableEq, Repr

/-- `ConfigCreateFile.Perform` from main.go: clone the compiled name
template, bind the per-request `field` accessor, render the file name,
`MkdirAll(path.Base(fileName))`, create the file, and encode the field
map; each failure writes one HTTP 500 response and stops. -/
def ConfigCreateFile.Perform (ext : Ext) (c : ConfigCreateFile)
    (fields : List (String × ConfigField)) : PerformResult :=
  if ¬ ext.cloneOk then
    ⟨[.internalError "Internal server error."], [], false⟩
  else
    match ext.render c.Name (fieldMap fields) with
    | Option.none =>
      ⟨[.internalError "Could not process request due to misconfiguration."], [], false⟩
    | some fileName =>
      let dir := pathBase fileName
      if ¬ ext.mkdirOk dir then
        ⟨[.internalError "Could not process request due to a system error, please try again later."],
         [.mkdirAll dir], false⟩
      else if ¬ ext.createOk fileName then
        ⟨[.internalError "Could not process request due to a system error, please try again later."],
         [.mkdirAll dir, .createFile fileName], false⟩
      else if c.formatCode = FormatCodeYAML then
        if ext.encodeOk then
          ⟨[], [.mkdirAll dir, .createFile fileName, .encodeYaml fileName (fieldMap fields)], false⟩
        else
          ⟨[.internalError "Could not process request because of data error."],
           [.mkdirAll dir, .createFile fileName, .encodeYaml fileName (fieldMap fields)], false⟩
      else
        ⟨[], [.mkdirAll dir, .createFile fileName], true⟩

/-- Outcome of one request against a route: responses in the order they
were written, filesystem actions, panic flag, and the `Process.Fields`
map built along the way. -/
structure ServeResult where
  responses : List HResp
  actions : List FsAction
  panicked : Bool
  processFields : List (String × ConfigField)
  deriving DecidableEq, Repr

/-- One step of the field loop in `ConfigReceive.ServeHTTP`: resolve the
field, extend `process.Fields`, and append the error (if any) to the
multierror list. -/
def serveFieldStep (fmtTime : String → String) (form : String → List String)
    (acc : List (String × ConfigField) × List String) (nf : String × ConfigField) :
    List (String × ConfigField) × List String :=
  let r := nf.2.fetchValue fmtTime nf.1 form
  (acc.1 ++ [(nf.1, r.1)], acc.2 ++ r.2.toList)

/-- The field loop of `ConfigReceive.ServeHTTP`: `process.Fields`
together with the aggregated multierror list. -/
def resolveFields (fmtTime : String → String) (form : String → List String)
    (fields : List (String × ConfigField)) :
    List (String × ConfigField) × List String :=
  fields.foldl (serveFieldStep fmtTime form) ([], [])

/-- `ConfigReceive.ServeHTTP` from main.go.  `formErr` is the result of
form parsing (`ParseMultipartForm`/`ParseForm`); `form` is `r.Form`;
`referer` is the request's Referer header.  All fields are resolved with
errors aggregated; a non-nil aggregate yields one HTTP 400; otherwise
`Perform` runs when a file spec exists, and then — unconditionally,
panic aside — the handler redirects to the `callback` form value or the
Referer. -/
def ConfigReceive.ServeHTTP (ext : Ext) (fmtTime : String → String)
    (c : ConfigReceive) (formErr : Option String)
    (form : String → List String) (referer : String) : ServeResult :=
  match formErr with
  | some e => ⟨[.badRequest ("Error parsing form: " ++ e)], [], false, []⟩
  | Option.none =>
    let step := resolveFields fmtTime form c.Fields
    let procFields := step.1
    let errs := step.2
    if errs ≠ [] then
      ⟨[.badRequest (multierrorMsg errs)], [], false, procFields⟩
    else
      let perf : PerformResult :=
        match c.CreateFile with
        | Option.none => ⟨[], [], false⟩
        | some cf => cf.Perform ext procFields
      if perf.panicked then
        ⟨perf.responses, perf.actions, true, procFields⟩
      else
        let cb := (form "callback").headD ""
        let loc := if cb ≠ "" then cb else referer
        ⟨perf.responses ++ [.redirect loc], perf.actions, false, procFields⟩

/-- Substring containment on strings (used to state that an error
message names a field). -/
def strContains (hay needle : String) : Prop :=
  ∃ s t, s ++ needle ++ t = hay

theorem strContains_trans {a b c : String} (h1 : strContains a b)
    (h2 : strContains b c) : strContains a c := by
  obtain ⟨s, t, rfl⟩ := h1
  obtain ⟨u, v, rfl⟩ := h2
  exact ⟨s ++ u, v ++ t, by simp [String.append_assoc]⟩

theorem strContains_append_left (a : String) {hay needle : String}
    (h : strContains hay needle) : strContains (a ++ hay) needle := by
  obtain ⟨s, t, rfl⟩ := h
  exact ⟨a ++ s, t, by simp [String.append_assoc]⟩

theorem strContains_append_right (b : String) {hay needle : String}
    (h : strContains hay needle) : strContains (hay ++ b) needle := by
  obtain ⟨s, t, rfl⟩ := h
  exact ⟨s, t ++ b, by simp [String.append_assoc]⟩

theorem strContains_self (s : String) : strContains s s :=
  ⟨"", "", by simp [String.empty_append, String.append_empty]⟩

theorem mem_goJoin {x : String} (sep : String) {l : List String} (h : x ∈ l) :
    strContains (goJoin sep l) x := by
  induction l with
  | nil => cases h
  | cons a tl ih =>
    cases tl with
    | nil =>
      rcases List.mem_singleton.mp h with rfl
      exact strContains_self x
    | cons b tl2 =>
      rcases List.mem_cons.mp h with rfl | hmem
      · exact ⟨"", sep ++ goJoin sep (b :: tl2),
          by simp [goJoin, String.empty_append, String.append_assoc]⟩
      · show strContains (a ++ sep ++ goJoin sep (b :: tl2)) x
        exact strContains_append_left (a ++ sep) (ih hmem)

theorem mem_multierrorMsg {msg : String} {es : List String} (h : msg ∈ es) :
    strContains (multierrorMsg es) msg := by
  unfold multierrorMsg
  split_ifs with hlen
  · obtain ⟨x, rfl⟩ := List.length_eq_one.mp hlen
    rcases List.mem_singleton.mp h with rfl
    exact ⟨"1 error occurred:\n\t* ", "\n\n",
      by simp [List.headD, String.append_assoc]⟩
  · have hx : ("* " ++ msg) ∈ es.map (fun e => "* " ++ e) :=
      List.mem_map_of_mem _ h
    have h1 : strContains (goJoin "\n\t" (es.map (fun e => "* " ++ e))) msg :=
      strContains_trans (mem_goJoin "\n\t" hx) ⟨"* ", "", by simp [String.append_empty]⟩
    exact strContains_append_right _ (strContains_append_left _ h1)

theorem parseField_errlen (e n : String) (f : RawField) :
    (parseField e n f).2.length = f.defects := by
  simp only [parseField, RawField.defects]
  split_ifs <;> simp_all

theorem parseCreateFile_errlen (tmplErr : String → Option String)
    (e : String) (cf : RawCreateFile) :
    (parseCreateFile tmplErr e cf).2.length = cf.defects tmplErr := by
  simp only [parseCreateFile, RawCreateFile.defects]
  cases tmplErr cf.Name <;> split_ifs <;> simp_all

theorem parseReceive_fields_errlen (e : String) (fs : List (String × RawField)) :
    (((fs.map (fun nf => (nf.1, parseField e nf.1 nf.2))).map
        (fun nf => nf.2.2)).flatten).length
      = (fs.map (fun nf => nf.2.defects)).sum := by
  induction fs with
  | nil => rfl
  | cons hd tl ih =>
    simp only [List.map_cons, List.flatten_cons, List.length_append,
      List.sum_cons, ih, parseField_errlen]

theorem parseReceive_errlen (tmplErr : String → Option String) (e : String)
    (r : RawReceive) :
    (parseReceive tmplErr e r).2.length = r.defects tmplErr := by
  cases h : r.CreateFile with
  | none =>
    simp only [parseReceive, RawReceive.defects, h, Nat.add_zero]
    exact parseReceive_fields_errlen e r.Fields
  | some cf =>
    simp only [parseReceive, RawReceive.defects, h, List.length_append,
      parseReceive_fields_errlen, parseCreateFile_errlen]

theorem Parse_errlen (tmplErr : String → Option String) (c : RawConfig) :
    (Config.Parse tmplErr c).2.length = c.defects tmplErr := by
  simp only [Config.Parse, RawConfig.defects]
  induction c.Receive with
  | nil => rfl
  | cons hd tl ih =>
    simp only [List.map_cons, List.flatten_cons, List.length_append,
      List.sum_cons, ih, parseReceive_errlen]

theorem resolveFields_go (fmtTime : String → String) (form : String → List String)
    (fields : List (String × ConfigField))
    (acc : List (String × ConfigField) × List String) :
    fields.foldl (serveFieldStep fmtTime form) acc
      = (acc.1 ++ fields.map (fun nf => (nf.1, (nf.2.fetchValue fmtTime nf.1 form).1)),
         acc.2 ++ fields.filterMap (fun nf => (nf.2.fetchValue fmtTime nf.1 form).2)) := by
  induction fields generalizing acc with
  | nil => simp
  | cons hd tl ih =>
    rw [List.foldl_cons, ih]
    cases h : (hd.2.fetchValue fmtTime hd.1 form).2 <;>
      simp [serveFieldStep, h, List.filterMap_cons]

theorem resolveFields_spec (fmtTime : String → String) (form : String → List String)
    (fields : List (String × ConfigField)) :
    resolveFields fmtTime form fields
      = (fields.map (fun nf => (nf.1, (nf.2.fetchValue fmtTime nf.1 form).1)),
         fields.filterMap (fun nf => (nf.2.fetchValue fmtTime nf.1 form).2)) := by
  simpa [resolveFields] using resolveFields_go fmtTime form fields ([], [])

theorem ServeHTTP_badRequest (ext : Ext) (fmtTime : String → String)
    (c : ConfigReceive) (form : String → List String) (referer : String)
    (h : (resolveFields fmtTime form c.Fields).2 ≠ []) :
    c.ServeHTTP ext fmtTime Option.none form referer
      = ⟨[.badRequest (multierrorMsg (resolveFields fmtTime form c.Fields).2)], [], false,
         (resolveFields fmtTime form c.Fields).1⟩ := by
  simp [ConfigReceive.ServeHTTP, h]

theorem fetchValue_required_missing (fmtTime : String → String) (f : ConfigField)
    (name : String) (values : String → List String)
    (hi : f.Internal = false) (hr : f.Required = true)
    (hv : values ("field." ++ name) = []) :
    (f.fetchValue fmtTime name values).2 = some (requiredErrMsg name) := by
  by_cases hg : f.generateCode = GenerateCodeTimestamp <;>
    simp [ConfigField.fetchValue, hi, hr, hv, hg]

theorem Perform_no_panic (ext : Ext) (c : ConfigCreateFile)
    (fields : List (String × ConfigField)) (h : c.formatCode = FormatCodeYAML) :
    (c.Perform ext fields).panicked = false := by
  by_cases hc : ext.cloneOk
  · cases hr : ext.render c.Name (fieldMap fields)
    · simp [ConfigCreateFile.Perform, hc, hr]
    · simp only [ConfigCreateFile.Perform, hc, hr, not_true, if_false]
      split_ifs <;> rfl
  · simp [ConfigCreateFile.Perform, hc]

theorem parseField_gen_format (e n : String) (f : RawField) :
    ((parseField e n f).1.generateCode, (parseField e n f).1.Format)
      = if f.Generate = "timestamp" then
          (GenerateCodeTimestamp,
           if f.Format = "" then defaultTimestampLayout else f.Format)
        else (0, f.Format) := by
  simp only [parseField]
  split_ifs <;> simp_all

/-- C1 counterexample: a non-internal `generate=timestamp` field for which
the request submits `field.when=hello` resolves to the submitted text, not
to the generated timestamp, so the resolved value does not match the
configured time layout. -/
theorem c1_counterexample :
    ((⟨false, .none, "", TypeCodeString, "timestamp", GenerateCodeTimestamp, false,
        "20060102"⟩ : ConfigField).fetchValue (fun s => "TS:" ++ s) "when"
        (fun k => if k = "field.when" then ["hello"] else [])).1.Value
      = .str "hello"
    ∧ FieldValue.str "hello"
      ≠ .str (generateTimestamp (fun s => "TS:" ++ s) "20060102") := by
  exact ⟨rfl, by decide⟩

/-- C1 amended: for a `generate=timestamp` field the resolved value is the
generated timestamp (the field's configured layout rendered over "now")
whenever the field is internal or no value was submitted under
`field.<name>`; a non-internal generated field with a submitted value
takes the submitted value instead. -/
theorem c1_amended (fmtTime : String → String) (f : ConfigField) (name : String)
    (values : String → List String)
    (hg : f.generateCode = GenerateCodeTimestamp)
    (h : f.Internal = true ∨ values ("field." ++ name) = []) :
    (f.fetchValue fmtTime name values).1.Value
      = .str (generateTimestamp fmtTime f.Format) := by
  rcases h with h | h
  · simp [ConfigField.fetchValue, hg, h]
  · simp only [ConfigField.fetchValue, hg, h, if_true]
    split_ifs <;> simp_all

/-- Witness for the amended C1 at a concrete internal timestamp field. -/
theorem c1_amended_witness :
    ((⟨true, .none, "", TypeCodeString, "timestamp", GenerateCodeTimestamp, false,
        "2006"⟩ : ConfigField).fetchValue (fun s => "TS:" ++ s) "when"
        (fun k => if k = "field.when" then ["hello"] else [])).1.Value
      = .str (generateTimestamp (fun s => "TS:" ++ s) "2006") :=
  c1_amended (fun s => "TS:" ++ s) _ "when" _ rfl (Or.inl rfl)

/-- C3 counterexample: an optional (non-required, non-internal,
non-generated) string field with no submitted values resolves without
error but keeps its prior nil value — not the empty string that the
claim's "zero value of its declared type" demands. -/
theorem c3_counterexample :
    ((⟨false, .none, "string", TypeCodeString, "", 0, false, ""⟩ : ConfigField).fetchValue
        (fun s => s) "nick" (fun _ => [])).2 = Option.none
    ∧ ((⟨false, .none, "string", TypeCodeString, "", 0, false, ""⟩ : ConfigField).fetchValue
        (fun s => s) "nick" (fun _ => [])).1.Value ≠ .str "" := by
  exact ⟨rfl, by decide⟩

/-- C3 amended: for a non-generated, non-internal, optional field with no
submitted values, resolution succeeds without error and leaves the field
— in particular its value — unchanged: the resolved value is the
pre-existing one (nil when the schema configured none), not the zero
value of the declared type. -/
theorem c3_amended (fmtTime : String → String) (f : ConfigField) (name : String)
    (values : String → List String)
    (hg : f.generateCode ≠ GenerateCodeTimestamp)
    (hi : f.Internal = false) (hr : f.Required = false)
    (hv : values ("field." ++ name) = []) :
    f.fetchValue fmtTime name values = (f, Option.none) := by
  simp [ConfigField.fetchValue, hg, hi, hr, hv]

/-- Witness for the amended C3 at a concrete optional field. -/
theorem c3_amended_witness :
    (⟨false, .str "preset", "string", TypeCodeString, "", 0, false, ""⟩ : ConfigField).fetchValue
        (fun s => s) "nick" (fun _ => [])
      = (⟨false, .str "preset", "string", TypeCodeString, "", 0, false, ""⟩, Option.none) :=
  c3_amended (fun s => s) _ "nick" (fun _ => []) (by decide) rfl rfl rfl

/-- C5: for a non-internal field with at least one submitted value, the
last submitted value wins: a string-typed field takes it verbatim, a
bool-typed field parses it with strconv.ParseBool, and a parse failure
yields the type-coercion error naming the field. -/
theorem c5_last_value_wins (fmtTime : String → String) (f : ConfigField)
    (name : String) (values : String → List String)
    (hi : f.Internal = false) (hv : values ("field." ++ name) ≠ []) :
    (f.typeCode = TypeCodeString →
      (f.fetchValue fmtTime name values).1.Value
          = .str ((values ("field." ++ name)).getLast?.getD "")
        ∧ (f.fetchValue fmtTime name values).2 = Option.none)
    ∧ (f.typeCode = TypeCodeBool →
      (∀ b, parseBool ((values ("field." ++ name)).getLast?.getD "") = some b →
        (f.fetchValue fmtTime name values).1.Value = .bool b
          ∧ (f.fetchValue fmtTime name values).2 = Option.none)
      ∧ (parseBool ((values ("field." ++ name)).getLast?.getD "") = Option.none →
        (f.fetchValue fmtTime name values).2
          = some (coercionErrMsg name (values ("field." ++ name))))) := by
  have hlen : ¬ (values ("field." ++ name)).length = 0 := by
    simpa [List.length_eq_zero] using hv
  refine ⟨fun ht => ?_, fun ht => ⟨fun b hb => ?_, fun hb => ?_⟩⟩
  · by_cases hg : f.generateCode = GenerateCodeTimestamp <;>
      simp [ConfigField.fetchValue, hi, hlen, ht, hg, TypeCodeString, TypeCodeBool]
  · by_cases hg : f.generateCode = GenerateCodeTimestamp <;>
      simp [ConfigField.fetchValue, hi, hlen, ht, hb, hg,
        TypeCodeString, TypeCodeBool]
  · by_cases hg : f.generateCode = GenerateCodeTimestamp <;>
      simp [ConfigField.fetchValue, hi, hlen, ht, hb, hg,
        TypeCodeString, TypeCodeBool]

/-- Witness for C5 at a concrete two-valued bool submission. -/
theorem c5_witness :
    ((⟨false, .none, "bool", TypeCodeBool, "", 0, false, ""⟩ : ConfigField).typeCode
        = TypeCodeString →
      ((⟨false, .none, "bool", TypeCodeBool, "", 0, false, ""⟩ : ConfigField).fetchValue
          (fun s => s) "ok"
          (fun k => if k = "field.ok" then ["false", "true"] else [])).1.Value
          = .str (((fun k => if k = "field.ok" then ["false", "true"] else [])
              ("field." ++ "ok")).getLast?.getD "")
        ∧ ((⟨false, .none, "bool", TypeCodeBool, "", 0, false, ""⟩ : ConfigField).fetchValue
            (fun s => s) "ok"
            (fun k => if k = "field.ok" then ["false", "true"] else [])).2 = Option.none)
    ∧ ((⟨false, .none, "bool", TypeCodeBool, "", 0, false, ""⟩ : ConfigField).typeCode
        = TypeCodeBool →
      (∀ b, parseBool (((fun k => if k = "field.ok" then ["false", "true"] else [])
            ("field." ++ "ok")).getLast?.getD "") = some b →
        ((⟨false, .none, "bool", TypeCodeBool, "", 0, false, ""⟩ : ConfigField).fetchValue
            (fun s => s) "ok"
            (fun k => if k = "field.ok" then ["false", "true"] else [])).1.Value = .bool b
          ∧ ((⟨false, .none, "bool", TypeCodeBool, "", 0, false, ""⟩ : ConfigField).fetchValue
              (fun s => s) "ok"
              (fun k => if k = "field.ok" then ["false", "true"] else [])).2 = Option.none)
      ∧ (parseBool (((fun k => if k = "field.ok" then ["false", "true"] else [])
            ("field." ++ "ok")).getLast?.getD "") = Option.none →
        ((⟨false, .none, "bool", TypeCodeBool, "", 0, false, ""⟩ : ConfigField).fetchValue
            (fun s => s) "ok"
            (fun k => if k = "field.ok" then ["false", "true"] else [])).2
          = some (coercionErrMsg "ok"
              ((fun k => if k = "field.ok" then ["false", "true"] else [])
                ("field." ++ "ok"))))) :=
  c5_last_value_wins (fun s => s) _ "ok" _ rfl (by decide)

/-- C7: an internal field never reads the submitted values: its resolution
is identical under any two submitted-value sets, performs no
required/coercion validation (no error), and its value is exactly what
generation produced, or the pre-existing value when the field is not
generated. -/
theorem c7_internal_never_reads_input (fmtTime : String → String)
    (f : ConfigField) (name : String) (values values' : String → List String)
    (hi : f.Internal = true) :
    f.fetchValue fmtTime name values = f.fetchValue fmtTime name values'
    ∧ (f.fetchValue fmtTime name values).2 = Option.none
    ∧ (f.fetchValue fmtTime name values).1.Value
        = (if f.generateCode = GenerateCodeTimestamp then
            .str (generateTimestamp fmtTime f.Format) else f.Value) := by
  by_cases hg : f.generateCode = GenerateCodeTimestamp <;>
    simp [ConfigField.fetchValue, hi, hg]

/-- Witness for C7 at a concrete internal field with clashing input. -/
theorem c7_witness :
    (⟨true, .str "secret", "string", TypeCodeString, "", 0, false, ""⟩ : ConfigField).fetchValue
        (fun s => s) "token" (fun k => if k = "field.token" then ["evil"] else [])
      = (⟨true, .str "secret", "string", TypeCodeString, "", 0, false, ""⟩ : ConfigField).fetchValue
          (fun s => s) "token" (fun _ => [])
    ∧ ((⟨true, .str "secret", "string", TypeCodeString, "", 0, false, ""⟩ : ConfigField).fetchValue
        (fun s => s) "token"
        (fun k => if k = "field.token" then ["evil"] else [])).2 = Option.none
    ∧ ((⟨true, .str "secret", "string", TypeCodeString, "", 0, false, ""⟩ : ConfigField).fetchValue
        (fun s => s) "token"
        (fun k => if k = "field.token" then ["evil"] else [])).1.Value
        = (if (⟨true, .str "secret", "string", TypeCodeString, "", 0, false, ""⟩ : ConfigField).generateCode
              = GenerateCodeTimestamp then
            .str (generateTimestamp (fun s => s)
              (⟨true, .str "secret", "string", TypeCodeString, "", 0, false, ""⟩ : ConfigField).Format)
          else (⟨true, .str "secret", "string", TypeCodeString, "", 0, false, ""⟩ : ConfigField).Value) :=
  c7_internal_never_reads_input (fun s => s) _ "token" _ (fun _ => []) rfl

/-- C2: compilation of a schema with at least one structural defect
(unknown generate value, unknown type, invalid path template, unknown
file format) fails, and the aggregated multierror carries exactly one
entry per defect — none is dropped and none short-circuits the others. -/
theorem c2_parse_collects_all_defects (tmplErr : String → Option String)
    (c : RawConfig) (h : 1 ≤ c.defects tmplErr) :
    (Config.Parse tmplErr c).2.length = c.defects tmplErr
    ∧ (Config.Parse tmplErr c).2 ≠ [] := by
  refine ⟨Parse_errlen tmplErr c, fun hnil => ?_⟩
  have hlen := Parse_errlen tmplErr c
  rw [hnil] at hlen
  simp only [List.length_nil] at hlen
  omega

/-- Witness for C2 on a schema with four defects spread over two routes. -/
theorem c2_witness :
    1 ≤ RawConfig.defects (fun s => if s = "\x7b\x7bbad" then some "boom" else Option.none)
        ⟨[("/a", ⟨[("f", ⟨false, .none, "badtype", "badgen", false, ""⟩)],
            some ⟨"\x7b\x7bbad", "pdf"⟩⟩),
          ("/b", ⟨[("g", ⟨false, .none, "bool", "", true, ""⟩)], Option.none⟩)]⟩
    ∧ ((Config.Parse (fun s => if s = "\x7b\x7bbad" then some "boom" else Option.none)
          ⟨[("/a", ⟨[("f", ⟨false, .none, "badtype", "badgen", false, ""⟩)],
              some ⟨"\x7b\x7bbad", "pdf"⟩⟩),
            ("/b", ⟨[("g", ⟨false, .none, "bool", "", true, ""⟩)], Option.none⟩)]⟩).2.length
        = RawConfig.defects (fun s => if s = "\x7b\x7bbad" then some "boom" else Option.none)
            ⟨[("/a", ⟨[("f", ⟨false, .none, "badtype", "badgen", false, ""⟩)],
                some ⟨"\x7b\x7bbad", "pdf"⟩⟩),
              ("/b", ⟨[("g", ⟨false, .none, "bool", "", true, ""⟩)], Option.none⟩)]⟩
      ∧ (Config.Parse (fun s => if s = "\x7b\x7bbad" then some "boom" else Option.none)
          ⟨[("/a", ⟨[("f", ⟨false, .none, "badtype", "badgen", false, ""⟩)],
              some ⟨"\x7b\x7bbad", "pdf"⟩⟩),
            ("/b", ⟨[("g", ⟨false, .none, "bool", "", true, ""⟩)], Option.none⟩)]⟩).2 ≠ []) :=
  ⟨by decide, c2_parse_collects_all_defects _ _ (by decide)⟩

/-- C8: in a schema that compiles without errors, a `generate=timestamp`
field with an empty declared format is compiled with the fixed layout
`20060102.150405.999999999` (and lands, so compiled, in the compiled
route table); every compiled timestamp field therefore has a non-empty
format, making the RFC-3339 fallback branch of `generateTimestamp`
unreachable for compiled fields. -/
theorem c8_default_format_blocks_fallback (tmplErr : String → Option String)
    (c : RawConfig) (endpoint name : String) (rr : RawReceive) (rf : RawField)
    (hok : (Config.Parse tmplErr c).2 = [])
    (hr : (endpoint, rr) ∈ c.Receive) (hf : (name, rf) ∈ rr.Fields) :
    ((endpoint, (parseReceive tmplErr endpoint rr).1)
        ∈ (Config.Parse tmplErr c).1.Receive)
    ∧ ((name, (parseField endpoint name rf).1)
        ∈ (parseReceive tmplErr endpoint rr).1.Fields)
    ∧ (rf.Generate = "timestamp" ∧ rf.Format = "" →
        (parseField endpoint name rf).1.Format = defaultTimestampLayout)
    ∧ ((parseField endpoint name rf).1.generateCode = GenerateCodeTimestamp →
        (parseField endpoint name rf).1.Format ≠ ""
        ∧ ∀ fmtTime : String → String,
            generateTimestamp fmtTime ((parseField endpoint name rf).1.Format)
              = fmtTime ((parseField endpoint name rf).1.Format)) := by
  have hpf := parseField_gen_format endpoint name rf
  refine ⟨?_, ?_, ?_, ?_⟩
  · simp only [Config.Parse, List.map_map]
    exact List.mem_map_of_mem _ hr
  · cases hcf : rr.CreateFile <;>
      · simp only [parseReceive, hcf, List.map_map]
        exact List.mem_map_of_mem _ hf
  · rintro ⟨hgen, hfmt⟩
    rw [if_pos hgen] at hpf
    have := congrArg Prod.snd hpf
    simp only at this
    rw [this, if_pos hfmt]
  · intro hgc
    by_cases hgen : rf.Generate = "timestamp"
    · rw [if_pos hgen] at hpf
      have hfm := congrArg Prod.snd hpf
      simp only at hfm
      have hne : (parseField endpoint name rf).1.Format ≠ "" := by
        rw [hfm]
        split_ifs with h2
        · decide
        · exact h2
      exact ⟨hne, fun fmtTime => by
        unfold generateTimestamp
        rw [if_neg hne]⟩
    · rw [if_neg hgen] at hpf
      have h0 := congrArg Prod.fst hpf
      simp only at h0
      rw [h0] at hgc
      exact absurd hgc (by decide)

/-- Witness for C8 on a one-route schema whose timestamp field carries no
format. -/
theorem c8_witness :
    ((Config.Parse (fun _ => Option.none)
        ⟨[("/s", ⟨[("joined", ⟨false, .none, "", "timestamp", false, ""⟩)],
            Option.none⟩)]⟩).2 = [])
    ∧ (("/s", (parseReceive (fun _ => Option.none) "/s"
          ⟨[("joined", ⟨false, .none, "", "timestamp", false, ""⟩)], Option.none⟩).1)
        ∈ (Config.Parse (fun _ => Option.none)
            ⟨[("/s", ⟨[("joined", ⟨false, .none, "", "timestamp", false, ""⟩)],
                Option.none⟩)]⟩).1.Receive
      ∧ (("joined", (parseField "/s" "joined"
            ⟨false, .none, "", "timestamp", false, ""⟩).1)
          ∈ (parseReceive (fun _ => Option.none) "/s"
              ⟨[("joined", ⟨false, .none, "", "timestamp", false, ""⟩)],
                Option.none⟩).1.Fields)
      ∧ ((⟨false, .none, "", "timestamp", false, ""⟩ : RawField).Generate = "timestamp"
            ∧ (⟨false, .none, "", "timestamp", false, ""⟩ : RawField).Format = "" →
          (parseField "/s" "joined"
              ⟨false, .none, "", "timestamp", false, ""⟩).1.Format
            = defaultTimestampLayout)
      ∧ ((parseField "/s" "joined"
            ⟨false, .none, "", "timestamp", false, ""⟩).1.generateCode
            = GenerateCodeTimestamp →
          (parseField "/s" "joined"
              ⟨false, .none, "", "timestamp", false, ""⟩).1.Format ≠ ""
          ∧ ∀ fmtTime : String → String,
              generateTimestamp fmtTime
                  ((parseField "/s" "joined"
                      ⟨false, .none, "", "timestamp", false, ""⟩).1.Format)
                = fmtTime ((parseField "/s" "joined"
                    ⟨false, .none, "", "timestamp", false, ""⟩).1.Format))) :=
  ⟨by decide,
   c8_default_format_blocks_fallback (fun _ => Option.none) _ "/s" "joined" _ _
     (by decide) (by decide) (by decide)⟩

/-- C4: when at least one field of the route fails to resolve, every
field is still resolved (process.Fields gets one entry per declared
field, each holding its own `fetchValue` result), the response is a
single HTTP 400 carrying the aggregated multierror message, and no
filesystem action is performed — materialization is never reached. -/
theorem c4_field_errors_reject_request (ext : Ext) (fmtTime : String → String)
    (c : ConfigReceive) (form : String → List String) (referer : String)
    (h : ∃ nf ∈ c.Fields,
        ((nf : String × ConfigField).2.fetchValue fmtTime nf.1 form).2 ≠ Option.none) :
    c.ServeHTTP ext fmtTime Option.none form referer
      = ⟨[.badRequest (multierrorMsg
            (c.Fields.filterMap (fun nf => (nf.2.fetchValue fmtTime nf.1 form).2)))],
          [], false,
          c.Fields.map (fun nf => (nf.1, (nf.2.fetchValue fmtTime nf.1 form).1))⟩ := by
  obtain ⟨nf, hmem, hne⟩ := h
  obtain ⟨msg, hmsg⟩ := Option.ne_none_iff_exists'.mp hne
  have hmm : msg ∈ c.Fields.filterMap (fun nf => (nf.2.fetchValue fmtTime nf.1 form).2) :=
    List.mem_filterMap.mpr ⟨nf, hmem, hmsg⟩
  have hnil : (resolveFields fmtTime form c.Fields).2 ≠ [] := by
    rw [resolveFields_spec]
    exact List.ne_nil_of_mem hmm
  rw [ServeHTTP_badRequest ext fmtTime c form referer hnil, resolveFields_spec]

/-- Witness for C4: a route with a missing required field and an optional
field; both land in process.Fields, the reply is one 400, no file I/O. -/
theorem c4_witness :
    (∃ nf ∈ [("name", (⟨false, .none, "", TypeCodeString, "", 0, true, ""⟩ : ConfigField)),
             ("nick", (⟨false, .none, "", TypeCodeString, "", 0, false, ""⟩ : ConfigField))],
        ((nf : String × ConfigField).2.fetchValue (fun s => s) nf.1 (fun _ => [])).2
          ≠ Option.none)
    ∧ ConfigReceive.ServeHTTP
        ⟨true, fun _ _ => Option.none, fun _ => true, fun _ => true, true⟩ (fun s => s)
        ⟨[("name", ⟨false, .none, "", TypeCodeString, "", 0, true, ""⟩),
          ("nick", ⟨false, .none, "", TypeCodeString, "", 0, false, ""⟩)],
          some ⟨"out.yaml", "yaml", FormatCodeYAML⟩⟩
        Option.none (fun _ => []) "http://ref"
      = ⟨[.badRequest (multierrorMsg
            (([("name", (⟨false, .none, "", TypeCodeString, "", 0, true, ""⟩ : ConfigField)),
               ("nick", (⟨false, .none, "", TypeCodeString, "", 0, false, ""⟩ : ConfigField))]).filterMap
              (fun nf => (nf.2.fetchValue (fun s => s) nf.1 (fun _ => [])).2)))],
          [], false,
          ([("name", (⟨false, .none, "", TypeCodeString, "", 0, true, ""⟩ : ConfigField)),
            ("nick", (⟨false, .none, "", TypeCodeString, "", 0, false, ""⟩ : ConfigField))]).map
            (fun nf => (nf.1, (nf.2.fetchValue (fun s => s) nf.1 (fun _ => [])).1))⟩ :=
  ⟨by decide,
   c4_field_errors_reject_request
     ⟨true, fun _ _ => Option.none, fun _ => true, fun _ => true, true⟩ (fun s => s)
     ⟨[("name", ⟨false, .none, "", TypeCodeString, "", 0, true, ""⟩),
       ("nick", ⟨false, .none, "", TypeCodeString, "", 0, false, ""⟩)],
       some ⟨"out.yaml", "yaml", FormatCodeYAML⟩⟩
     (fun _ => []) "http://ref" (by decide)⟩

/-- C6: a required, non-internal, non-generated field with no submitted
values makes the whole request fail with a single HTTP 400 whose message
contains the field's name. -/
theorem c6_missing_required_field_400 (ext : Ext) (fmtTime : String → String)
    (c : ConfigReceive) (form : String → List String) (referer : String)
    (name : String) (f : ConfigField)
    (hmem : (name, f) ∈ c.Fields)
    (hr : f.Required = true) (hi : f.Internal = false)
    (hg : f.generateCode ≠ GenerateCodeTimestamp)
    (hv : form ("field." ++ name) = []) :
    ∃ msg, (c.ServeHTTP ext fmtTime Option.none form referer).responses
        = [.badRequest msg]
      ∧ strContains msg name := by
  have herr : (f.fetchValue fmtTime name form).2 = some (requiredErrMsg name) :=
    fetchValue_required_missing fmtTime f name form hi hr hv
  have hmm : requiredErrMsg name ∈ (resolveFields fmtTime form c.Fields).2 := by
    rw [resolveFields_spec]
    exact List.mem_filterMap.mpr ⟨(name, f), hmem, herr⟩
  have hnil : (resolveFields fmtTime form c.Fields).2 ≠ [] :=
    List.ne_nil_of_mem hmm
  refine ⟨multierrorMsg (resolveFields fmtTime form c.Fields).2, ?_, ?_⟩
  · rw [ServeHTTP_badRequest ext fmtTime c form referer hnil]
  · exact strContains_trans (mem_multierrorMsg hmm)
      ⟨"required field field.", " not set", rfl⟩

/-- Witness for C6 on a one-field route whose required field is absent. -/
theorem c6_witness :
    ∃ msg,
      (ConfigReceive.ServeHTTP
          ⟨true, fun _ _ => Option.none, fun _ => true, fun _ => true, true⟩ (fun s => s)
          ⟨[("name", ⟨false, .none, "", TypeCodeString, "", 0, true, ""⟩)], Option.none⟩
          Option.none (fun _ => []) "http://ref").responses
        = [.badRequest msg]
      ∧ strContains msg "name" :=
  c6_missing_required_field_400
    ⟨true, fun _ _ => Option.none, fun _ => true, fun _ => true, true⟩ (fun s => s)
    ⟨[("name", ⟨false, .none, "", TypeCodeString, "", 0, true, ""⟩)], Option.none⟩
    (fun _ => []) "http://ref" "name" ⟨false, .none, "", TypeCodeString, "", 0, true, ""⟩
    (by decide) rfl rfl (by decide) rfl

/-- C9: whenever the output path template renders successfully, the
directory recursively created before the file is `path.Base` of the
rendered path — its base name — rather than its containing directory. -/
theorem c9_mkdir_uses_basename (ext : Ext) (c : ConfigCreateFile)
    (fields : List (String × ConfigField)) (fileName : String)
    (hclone : ext.cloneOk = true)
    (hrender : ext.render c.Name (fieldMap fields) = some fileName) :
    ∃ rest, (c.Perform ext fields).actions
        = FsAction.mkdirAll (pathBase fileName) :: rest := by
  simp only [ConfigCreateFile.Perform, hclone, not_true, if_false, hrender]
  split_ifs <;> exact ⟨_, rfl⟩

/-- Witness for C9 at a nested rendered path: the directory created is
`alice.yaml` (the base name), not the containing directory `out`. -/
theorem c9_witness :
    (⟨true, fun _ _ => some "out/alice.yaml", fun _ => true, fun _ => true, true⟩ : Ext).cloneOk
        = true
    ∧ ∃ rest,
        (ConfigCreateFile.Perform
            ⟨true, fun _ _ => some "out/alice.yaml", fun _ => true, fun _ => true, true⟩
            ⟨"tpl", "yaml", FormatCodeYAML⟩ []).actions
          = FsAction.mkdirAll (pathBase "out/alice.yaml") :: rest :=
  ⟨rfl,
   c9_mkdir_uses_basename
     ⟨true, fun _ _ => some "out/alice.yaml", fun _ => true, fun _ => true, true⟩
     ⟨"tpl", "yaml", FormatCodeYAML⟩ [] "out/alice.yaml" rfl rfl⟩

/-- C10: once every field resolved and the route has a (compiled) file
spec, the dispatcher appends the redirect — to the `callback` form value
when non-empty, otherwise to the Referer — after whatever responses
`Perform` wrote, for every possible materialization outcome (template,
directory, file-creation or encoding failure included): the dispatcher
never inspects `Perform`'s outcome. -/
theorem c10_redirect_unconditional (ext : Ext) (fmtTime : String → String)
    (c : ConfigReceive) (form : String → List String) (referer : String)
    (cf : ConfigCreateFile)
    (hcf : c.CreateFile = some cf)
    (hfmt : cf.formatCode = FormatCodeYAML)
    (herr : (resolveFields fmtTime form c.Fields).2 = []) :
    (c.ServeHTTP ext fmtTime Option.none form referer).responses
      = (cf.Perform ext (resolveFields fmtTime form c.Fields).1).responses
        ++ [.redirect (if (form "callback").headD "" ≠ ""
              then (form "callback").headD "" else referer)] := by
  have hnp := Perform_no_panic ext cf (resolveFields fmtTime form c.Fields).1 hfmt
  simp [ConfigReceive.ServeHTTP, herr, hcf, hnp]

/-- Witness for C10: the filesystem refuses MkdirAll, Perform answers
HTTP 500, and the dispatcher still writes the redirect to the Referer. -/
theorem c10_witness :
    (ConfigReceive.ServeHTTP
        ⟨true, fun _ _ => some "out/x.yaml", fun _ => false, fun _ => true, true⟩
        (fun s => s)
        ⟨[("nick", ⟨false, .none, "", TypeCodeString, "", 0, false, ""⟩)],
          some ⟨"tpl", "yaml", FormatCodeYAML⟩⟩
        Option.none (fun _ => []) "http://back").responses
      = (ConfigCreateFile.Perform
          ⟨true, fun _ _ => some "out/x.yaml", fun _ => false, fun _ => true, true⟩
          ⟨"tpl", "yaml", FormatCodeYAML⟩
          (resolveFields (fun s => s) (fun _ => [])
            [("nick", ⟨false, .none, "", TypeCodeString, "", 0, false, ""⟩)]).1).responses
        ++ [.redirect (if ((fun _ => ([] : List String)) "callback").headD "" ≠ ""
              then ((fun _ => ([] : List String)) "callback").headD "" else "http://back")] :=
  c10_redirect_unconditional
    ⟨true, fun _ _ => some "out/x.yaml", fun _ => false, fun _ => true, true⟩
    (fun s => s)
    ⟨[("nick", ⟨false, .none, "", TypeCodeString, "", 0, false, ""⟩)],
      some ⟨"tpl", "yaml", FormatCodeYAML⟩⟩
    (fun _ => []) "http://back" ⟨"tpl", "yaml", FormatCodeYAML⟩ rfl rfl (by decide)

end Datamgr
